import Mathlib

/-!
Shallow embedding of `src/rectangles.rs` from the `bevy-vs-pixi` repository.

Modelling conventions:
* `f32` values (widths, positions, velocities, elapsed seconds) are modelled
  as exact rationals `ℚ`; every float expression the claims mention is built
  from negation, subtraction, halving and multiplication, which the claims
  state as exact formulas.
* `u32` counters use `Nat` together with explicit wrapping modulo `2 ^ 32`
  (release-mode Rust semantics) at every operation that can overflow.
* `thread_rng` is modelled as a stream `rng : Nat → ℚ` of draws in `[0, 1)`;
  `rng.gen::<f32>()` is one draw, `rng.gen_range(60.0..120.0)` is
  `60 + u * 60` for one draw `u`.
* The ECS registry of live `RectangleObject` entities is a `List Entity`;
  Bevy `Commands` spawns append to it and `despawn` of `take num` of the
  query removes the first `num` elements (queries iterate in an arbitrary
  but fixed order, modelled by the list order).
-/

namespace Rects

/-- The modulus of `u32` arithmetic. -/
def u32Mod : Nat := 2 ^ 32

/-- Wrapping `u32` subtraction `a - b` (release-mode Rust), for `a b < u32Mod`. -/
def wsub (a b : Nat) : Nat := (a + u32Mod - b) % u32Mod

/-- A live rectangle: the `shapes::Rectangle` extents, the `Transform`
translation, and the `RectangleObject` component of `src/rectangles.rs`. -/
structure Entity where
  extents_x : ℚ
  extents_y : ℚ
  x : ℚ
  y : ℚ
  velocity : ℚ
  width : ℚ
  teleport_target : ℚ
deriving DecidableEq, Repr

/-- One iteration of the `for _ in 0..num` loop of `spawn_rectangles`
(`src/rectangles.rs:121-141`), spawning entity number `i`.  The loop body
makes four random draws in order: the side length, the x translation, the
y translation, and the velocity, so entity `i` consumes draws
`4*i .. 4*i+3`.  `w` and `h` are the primary window's width and height. -/
def spawnOne (rng : Nat → ℚ) (w h : ℚ) (i : Nat) : Entity :=
  let s := 10 + rng (4 * i) * 40
  { extents_x := s
    extents_y := s
    x := (rng (4 * i + 1) - 1 / 2) * w
    y := (rng (4 * i + 2) - 1 / 2) * h
    velocity := 60 + rng (4 * i + 3) * 60
    width := s
    teleport_target := -(w / 2) - s }

/-- `spawn_rectangles` (`src/rectangles.rs:103-142`): spawn `num` fresh
entities from the random stream, for primary-window size `w × h`. -/
def spawn_rectangles (rng : Nat → ℚ) (w h : ℚ) (num : Nat) : List Entity :=
  (List.range num).map (spawnOne rng w h)

/-- `despawn_rectangles` (`src/rectangles.rs:144-152`): despawn
`rectangles.iter().take(num)`, leaving the rest of the registry. -/
def despawn_rectangles (rectangles : List Entity) (num : Nat) : List Entity :=
  rectangles.drop num

/-- `mouse_handler` (`src/rectangles.rs:85-101`).  `left` and `right` are the
`just_released` flags for the two mouse buttons; `count` is `stats.count`
before the tick; the result is the new `stats.count` and the registry after
the queued spawn and despawn commands are applied.  `old` is captured once
before either branch, exactly as in the source. -/
def mouse_handler (left right : Bool) (rng : Nat → ℚ) (w h : ℚ)
    (count : Nat) (registry : List Entity) : Nat × List Entity :=
  let old := count
  let p1 : Nat × List Entity :=
    if left then
      let c := max 1 ((count * 2) % u32Mod)
      (c, registry ++ spawn_rectangles rng w h (wsub c old))
    else (count, registry)
  if right then
    let c := p1.1 / 2
    (c, despawn_rectangles p1.2 (wsub old c))
  else p1

/-- A `WindowResized` event: its window id reduced to whether it is the
primary window, and the new size. -/
structure WindowResized where
  is_primary : Bool
  width : ℚ
  height : ℚ
deriving DecidableEq, Repr

/-- `bounds_updater` (`src/rectangles.rs:154-170`): read this tick's resize
events, keep those whose id `is_primary`, take the `last`, and if one exists
recompute every rectangle's `teleport_target` from its own `width`. -/
def bounds_updater (resize_event : List WindowResized)
    (rectangles : List Entity) : List Entity :=
  match (resize_event.filter fun e => e.is_primary).getLast? with
  | none => rectangles
  | some e =>
      rectangles.map fun r => { r with teleport_target := -(e.width / 2) - r.width }

/-- The per-entity body of `movement` (`src/rectangles.rs:172-176`):
`transform.translation.x -= r.velocity * time.delta_seconds()`. -/
def moveStep (delta_seconds : ℚ) (r : Entity) : Entity :=
  { r with x := r.x - r.velocity * delta_seconds }

/-- `movement` (`src/rectangles.rs:172-176`), applied to the whole registry. -/
def movement (delta_seconds : ℚ) (rectangles : List Entity) : List Entity :=
  rectangles.map (moveStep delta_seconds)

/-- The per-entity body of `collision_detection` (`src/rectangles.rs:178-184`):
if `translation.x < teleport_target` then negate `translation.x`. -/
def collideStep (r : Entity) : Entity :=
  if r.x < r.teleport_target then { r with x := -r.x } else r

/-- `collision_detection` (`src/rectangles.rs:178-184`), over the registry. -/
def collision_detection (rectangles : List Entity) : List Entity :=
  rectangles.map collideStep

/-- The `Text` of the stats label: the list of section strings (the source
builds exactly two sections, a fixed prefix at index 0 and the variable
count at index 1). -/
structure Text where
  sections : List String
deriving DecidableEq, Repr

/-- `stats_system` (`src/rectangles.rs:186-194`).  `is_changed` is Bevy's
dirty flag on the `Stats` resource (set by any write since the last run of
this system, not by comparing values).  When set, section 1 is cleared and
`write!(.., "{}", stats.count)` writes the decimal representation. -/
def stats_system (is_changed : Bool) (count : Nat) (text : Text) : Text :=
  if is_changed then
    { text with sections := text.sections.set 1 (Nat.repr count) }
  else text

/-- The default `Stats` count (`src/rectangles.rs:25-29`). -/
def statsDefault : Nat := 250

end Rects

namespace Rects

/-! ### Helper lemmas -/

lemma u32Mod_eq : u32Mod = 4294967296 := rfl

lemma wsub_eq_sub {a b : Nat} (hba : b ≤ a) (ha : a < u32Mod) :
    wsub a b = a - b := by
  simp only [wsub, u32Mod_eq] at *
  omega

lemma spawn_rectangles_length (rng : Nat → ℚ) (w h : ℚ) (num : Nat) :
    (spawn_rectangles rng w h num).length = num := by
  simp [spawn_rectangles]

lemma spawn_rectangles_mem {rng : Nat → ℚ} {w h : ℚ} {num : Nat} {r : Entity}
    (hr : r ∈ spawn_rectangles rng w h num) :
    ∃ i, i < num ∧ r = spawnOne rng w h i := by
  simp only [spawn_rectangles, List.mem_map, List.mem_range] at hr
  obtain ⟨i, hi, hr⟩ := hr
  exact ⟨i, hi, hr.symm⟩

end Rects

namespace Rects

/-! ### Claims C1 - C3: mouse handling and population reconciliation -/

/-- C1 (counterexample to the claim as stated): at prior target count
`old = 2^31`, a left-button release does not set the target to
`max 1 (old * 2)`: the `u32` multiplication `stats.count * 2` wraps to `0`,
so the code sets the target to `1`, not to `max 1 (2^31 * 2) = 2^32`. -/
theorem C1_counterexample :
    (mouse_handler true false (fun _ => 0) 800 600 (2 ^ 31) []).1 = 1 ∧
    max 1 (2 ^ 31 * 2) ≠ 1 := by
  constructor
  · rfl
  · decide

/-- C1 (amended): for every prior target count `old` with `old * 2 < 2^32`
(no `u32` overflow), a left-button release sets the target to
`max 1 (old * 2)` and appends exactly `max 1 (old * 2) - old` freshly
spawned rectangle entities, so the registry grows by exactly
`new_target - old`. -/
theorem C1_left_release (rng : Nat → ℚ) (w h : ℚ) (old : Nat)
    (registry : List Entity) (hof : old * 2 < u32Mod) :
    (mouse_handler true false rng w h old registry).1 = max 1 (old * 2) ∧
    (mouse_handler true false rng w h old registry).2
      = registry ++ spawn_rectangles rng w h (max 1 (old * 2) - old) ∧
    ((mouse_handler true false rng w h old registry).2).length
      = registry.length + (max 1 (old * 2) - old) := by
  have h32 : old * 2 < 4294967296 := by rwa [u32Mod_eq] at hof
  have hmod : (old * 2) % u32Mod = old * 2 := Nat.mod_eq_of_lt hof
  have hw : wsub (max 1 (old * 2)) old = max 1 (old * 2) - old :=
    wsub_eq_sub (by omega) (by rw [u32Mod_eq]; omega)
  refine ⟨?_, ?_, ?_⟩ <;>
    simp [mouse_handler, hmod, hw, spawn_rectangles_length]

/-- Witness for C1 at `old = 250` (the default count). -/
theorem C1_left_release_witness :
    250 * 2 < u32Mod ∧
    (mouse_handler true false (fun _ => 0) 800 600 250 []).1 = max 1 (250 * 2) :=
  ⟨by decide, (C1_left_release (fun _ => 0) 800 600 250 [] (by decide)).1⟩

/-- C2: a right-button release sets the target to `old / 2` (integer
division); on a registry of size `old` it removes exactly `old - old / 2`
entities; for any registry at all the size never drops below zero (it is
cut by at most its own length); and from target `1` the target becomes `0`
with an empty registry. -/
theorem C2_right_release (rng : Nat → ℚ) (w h : ℚ) (old : Nat)
    (registry : List Entity) (hold : old < u32Mod)
    (hlen : registry.length = old) :
    (mouse_handler false true rng w h old registry).1 = old / 2 ∧
    ((mouse_handler false true rng w h old registry).2).length
      = registry.length - (old - old / 2) ∧
    (∀ reg : List Entity,
      ((mouse_handler false true rng w h old reg).2).length ≤ reg.length) ∧
    (old = 1 → (mouse_handler false true rng w h old registry).1 = 0 ∧
      (mouse_handler false true rng w h old registry).2 = []) := by
  have hw : wsub old (old / 2) = old - old / 2 :=
    wsub_eq_sub (Nat.div_le_self _ _) hold
  refine ⟨?_, ?_, ?_, ?_⟩
  · simp [mouse_handler]
  · simp [mouse_handler, despawn_rectangles, hw]
  · intro reg
    simp [mouse_handler, despawn_rectangles]
  · intro h1
    subst h1
    have hd : registry.drop 1 = [] := by
      have hdl := List.drop_length registry
      rwa [hlen] at hdl
    refine ⟨by simp [mouse_handler], ?_⟩
    simp [mouse_handler, despawn_rectangles, hw, hd]

/-- Witness for C2 at `old = 1` with a one-element registry: the target
becomes `0` and the registry empties. -/
theorem C2_right_release_witness :
    1 < u32Mod ∧ [spawnOne (fun _ => 0) 800 600 0].length = 1 ∧
    (mouse_handler false true (fun _ => 0) 800 600 1
      [spawnOne (fun _ => 0) 800 600 0]).1 = 1 / 2 ∧
    (mouse_handler false true (fun _ => 0) 800 600 1
      [spawnOne (fun _ => 0) 800 600 0]).2 = [] :=
  ⟨by decide, by decide,
    (C2_right_release (fun _ => 0) 800 600 1 [spawnOne (fun _ => 0) 800 600 0]
      (by decide) (by decide)).1,
    ((C2_right_release (fun _ => 0) 800 600 1 [spawnOne (fun _ => 0) 800 600 0]
      (by decide) (by decide)).2.2.2 rfl).2⟩

/-- C3: when both buttons release in the same tick with prior target
`c ≥ 1` and `2 * c` representable, the handler first doubles the target to
`2 * c` and spawns `c` rectangles, then halves it back to `c` but despawns
`old - stats.count = c - c = 0` entities (`old` was captured once at the
start): the tick ends with target `c` while the registry has grown by `c`,
so registry size no longer equals the target. -/
theorem C3_both_buttons (rng : Nat → ℚ) (w h : ℚ) (c : Nat)
    (registry : List Entity) (hc : 1 ≤ c) (hof : c * 2 < u32Mod) :
    (mouse_handler true true rng w h c registry).1 = c ∧
    (mouse_handler true true rng w h c registry).2
      = registry ++ spawn_rectangles rng w h c ∧
    ((mouse_handler true true rng w h c registry).2).length
      = registry.length + c := by
  have h32 : c * 2 < 4294967296 := by rwa [u32Mod_eq] at hof
  have hmod : (c * 2) % u32Mod = c * 2 := Nat.mod_eq_of_lt hof
  have hmax : max 1 (c * 2) = c * 2 := by omega
  have hsp : wsub (c * 2) c = c := by
    rw [wsub_eq_sub (by omega) hof]
    omega
  have hdiv : c * 2 / 2 = c := by omega
  have hww : wsub c c = 0 := by
    simp only [wsub, u32Mod_eq]
    omega
  refine ⟨?_, ?_, ?_⟩ <;>
    simp [mouse_handler, despawn_rectangles, hmod, hmax, hsp, hdiv, hww,
      spawn_rectangles_length]

/-- Witness for C3 at `c = 3`: the tick ends with target `3` and a registry
of size `6` when starting from a registry of size `3`. -/
theorem C3_both_buttons_witness :
    1 ≤ 3 ∧ 3 * 2 < u32Mod ∧
    (mouse_handler true true (fun _ => 0) 800 600 3
      (spawn_rectangles (fun _ => 0) 800 600 3)).1 = 3 ∧
    ((mouse_handler true true (fun _ => 0) 800 600 3
      (spawn_rectangles (fun _ => 0) 800 600 3)).2).length
      = (spawn_rectangles (fun _ => 0) 800 600 3).length + 3 :=
  ⟨by decide, by decide,
    (C3_both_buttons (fun _ => 0) 800 600 3 _ (by decide) (by decide)).1,
    (C3_both_buttons (fun _ => 0) 800 600 3 _ (by decide) (by decide)).2.2⟩

end Rects

namespace Rects

/-! ### Claims C4 - C8: resize handling, motion, boundary, overlay -/

lemma bounds_updater_of_last {evs : List WindowResized} {e : WindowResized}
    (hlast : (evs.filter fun ev => ev.is_primary).getLast? = some e)
    (rects : List Entity) :
    bounds_updater evs rects
      = rects.map fun r => { r with teleport_target := -(e.width / 2) - r.width } := by
  unfold bounds_updater
  rw [hlast]

lemma bounds_updater_of_none {evs : List WindowResized}
    (hnone : (evs.filter fun ev => ev.is_primary).getLast? = none)
    (rects : List Entity) :
    bounds_updater evs rects = rects := by
  unfold bounds_updater
  rw [hnone]

/-- C4: if the last primary resize event this tick carries width `W`, then
after `bounds_updater` every live rectangle's threshold is
`-(W/2) - width` for its own width; and a rectangle spawned while the
viewport has width `W` starts with threshold `-(W/2)` minus its own width. -/
theorem C4_resize_thresholds (evs : List WindowResized) (e : WindowResized)
    (rects : List Entity) (rng : Nat → ℚ) (W H : ℚ) (num : Nat)
    (hlast : (evs.filter fun ev => ev.is_primary).getLast? = some e) :
    (∀ r ∈ bounds_updater evs rects,
      r.teleport_target = -(e.width / 2) - r.width) ∧
    (∀ r ∈ spawn_rectangles rng W H num,
      r.teleport_target = -(W / 2) - r.width) := by
  constructor
  · intro r hr
    rw [bounds_updater_of_last hlast] at hr
    simp only [List.mem_map] at hr
    obtain ⟨s, hs, rfl⟩ := hr
    rfl
  · intro r hr
    obtain ⟨i, hi, rfl⟩ := spawn_rectangles_mem hr
    rfl

/-- Witness for C4: one primary resize event of width `800` applied to a
one-element registry, and one entity spawned at viewport width `640`. -/
theorem C4_resize_thresholds_witness :
    (([⟨true, 800, 600⟩] : List WindowResized).filter
        (fun ev => ev.is_primary)).getLast? = some ⟨true, 800, 600⟩ ∧
    (⟨5, 5, 0, 0, 60, 5, -((800 : ℚ) / 2) - 5⟩ : Entity).teleport_target
      = -((800 : ℚ) / 2) - (⟨5, 5, 0, 0, 60, 5, -((800 : ℚ) / 2) - 5⟩ : Entity).width ∧
    (spawnOne (fun _ => 0) 640 480 0).teleport_target
      = -((640 : ℚ) / 2) - (spawnOne (fun _ => 0) 640 480 0).width := by
  have hlast : (([⟨true, 800, 600⟩] : List WindowResized).filter
      (fun ev => ev.is_primary)).getLast? = some ⟨true, 800, 600⟩ := by decide
  have hth := C4_resize_thresholds [⟨true, 800, 600⟩] ⟨true, 800, 600⟩
    [⟨5, 5, 0, 0, 60, 5, 0⟩] (fun _ => 0) 640 480 1 hlast
  refine ⟨hlast, ?_, ?_⟩
  · refine hth.1 _ ?_
    rw [bounds_updater_of_last hlast]
    exact List.mem_map_of_mem _ (List.mem_singleton.mpr rfl)
  · exact hth.2 (spawnOne (fun _ => 0) 640 480 0) (by
      simp [spawn_rectangles, List.range_succ])

/-- C5: the boundary-enforcement step maps `collideStep` over the registry;
a rectangle with `x < teleport_target` gets `x` replaced by `-x` exactly
(negation, not a clamp), every other field kept, and a rectangle with
`x ≥ teleport_target` is left completely unchanged. -/
theorem C5_collision (rects : List Entity) (r : Entity) :
    collision_detection rects = rects.map collideStep ∧
    (r.x < r.teleport_target → collideStep r = { r with x := -r.x }) ∧
    (¬ r.x < r.teleport_target → collideStep r = r) := by
  refine ⟨rfl, ?_, ?_⟩
  · intro hlt
    simp [collideStep, hlt]
  · intro hge
    simp [collideStep, hge]

/-- Witness for C5: a rectangle at `x = -500` with threshold `-410` is
reflected to `x = 500`; one at `x = -100` is untouched. -/
theorem C5_collision_witness :
    ((⟨10, 10, -500, 0, 60, 10, -410⟩ : Entity).x
      < (⟨10, 10, -500, 0, 60, 10, -410⟩ : Entity).teleport_target) ∧
    collideStep ⟨10, 10, -500, 0, 60, 10, -410⟩ = ⟨10, 10, 500, 0, 60, 10, -410⟩ ∧
    ¬ ((⟨10, 10, -100, 0, 60, 10, -410⟩ : Entity).x
      < (⟨10, 10, -100, 0, 60, 10, -410⟩ : Entity).teleport_target) ∧
    collideStep ⟨10, 10, -100, 0, 60, 10, -410⟩ = ⟨10, 10, -100, 0, 60, 10, -410⟩ := by
  refine ⟨by decide, ?_, by decide, ?_⟩
  · have h := (C5_collision [] ⟨10, 10, -500, 0, 60, 10, -410⟩).2.1 (by decide)
    rw [h]
    decide
  · exact (C5_collision [] ⟨10, 10, -100, 0, 60, 10, -410⟩).2.2 (by decide)

/-- C6: only primary-tagged resize events count — appending a non-primary
event leaves `bounds_updater` unchanged — and when a primary event is the
last event of the tick, the result is determined by it alone, whatever
(primary or not) came before. -/
theorem C6_primary_last (evs : List WindowResized) (e f : WindowResized)
    (rects : List Entity) (hp : e.is_primary = true) (hf : f.is_primary = false) :
    bounds_updater (evs ++ [e]) rects
      = rects.map (fun r => { r with teleport_target := -(e.width / 2) - r.width }) ∧
    bounds_updater (evs ++ [f]) rects = bounds_updater evs rects := by
  constructor
  · have hfilter : ((evs ++ [e]).filter fun ev => ev.is_primary).getLast? = some e := by
      rw [List.filter_append]
      have h1 : ([e].filter fun ev => ev.is_primary) = [e] := by
        simp [List.filter, hp]
      rw [h1, List.getLast?_append_cons]
      rfl
    exact bounds_updater_of_last hfilter rects
  · have hfilter : ((evs ++ [f]).filter fun ev => ev.is_primary)
        = evs.filter fun ev => ev.is_primary := by
      rw [List.filter_append]
      have h1 : ([f].filter fun ev => ev.is_primary) = [] := by
        simp [List.filter, hf]
      rw [h1, List.append_nil]
    unfold bounds_updater
    rw [hfilter]

/-- Witness for C6: with an earlier primary event of width `1024`, a later
primary event of width `800` alone decides the thresholds, and a trailing
non-primary event of width `333` changes nothing. -/
theorem C6_primary_last_witness :
    (⟨true, 800, 600⟩ : WindowResized).is_primary = true ∧
    (⟨false, 333, 200⟩ : WindowResized).is_primary = false ∧
    bounds_updater [⟨true, 1024, 768⟩, ⟨true, 800, 600⟩] [⟨5, 5, 0, 0, 60, 5, 0⟩]
      = [⟨5, 5, 0, 0, 60, 5, -((800 : ℚ) / 2) - 5⟩] ∧
    bounds_updater [⟨true, 1024, 768⟩, ⟨false, 333, 200⟩] [⟨5, 5, 0, 0, 60, 5, 0⟩]
      = bounds_updater [⟨true, 1024, 768⟩] [⟨5, 5, 0, 0, 60, 5, 0⟩] := by
  have h := C6_primary_last [⟨true, 1024, 768⟩] ⟨true, 800, 600⟩ ⟨false, 333, 200⟩
    [⟨5, 5, 0, 0, 60, 5, 0⟩] rfl rfl
  refine ⟨rfl, rfl, ?_, h.2⟩
  rw [show ([⟨true, 1024, 768⟩, ⟨true, 800, 600⟩] : List WindowResized)
      = [⟨true, 1024, 768⟩] ++ [⟨true, 800, 600⟩] from rfl, h.1]
  rfl

/-- C7: the motion step maps `moveStep` over the registry; `moveStep`
subtracts `velocity * elapsed_seconds` from `x` and leaves `y`, the
velocity, the width, the extents and the boundary threshold unchanged. -/
theorem C7_movement (delta_seconds : ℚ) (rects : List Entity) (r : Entity) :
    movement delta_seconds rects = rects.map (moveStep delta_seconds) ∧
    (moveStep delta_seconds r).x = r.x - r.velocity * delta_seconds ∧
    (moveStep delta_seconds r).y = r.y ∧
    (moveStep delta_seconds r).velocity = r.velocity ∧
    (moveStep delta_seconds r).width = r.width ∧
    (moveStep delta_seconds r).teleport_target = r.teleport_target ∧
    (moveStep delta_seconds r).extents_x = r.extents_x ∧
    (moveStep delta_seconds r).extents_y = r.extents_y :=
  ⟨rfl, rfl, rfl, rfl, rfl, rfl, rfl, rfl⟩

/-- C8: with the dirty flag set, `stats_system` replaces section 1 (the
variable segment) with the exact decimal string of the count — regardless
of what was displayed before — and with the flag clear it returns the text
untouched. -/
theorem C8_stats_redraw (count : Nat) (text : Text) (s0 s1 : String) :
    stats_system true count text
      = { text with sections := text.sections.set 1 (Nat.repr count) } ∧
    stats_system false count text = text ∧
    (stats_system true count ⟨[s0, s1]⟩).sections = [s0, Nat.repr count] := by
  refine ⟨rfl, rfl, ?_⟩
  simp [stats_system]

end Rects

namespace Rects

/-! ### Claims C9 - C10: spawn randomization -/

/-- C9: for any random stream with draws in `[0, 1)` and positive viewport
dimensions `W × H`, every spawned rectangle has velocity in `[60, 120)`,
width in `[10, 50)`, and initial position with `x ∈ [-W/2, W/2)` and
`y ∈ [-H/2, H/2)`, each taken from its own separate draw of the stream. -/
theorem C9_spawn_ranges (rng : Nat → ℚ) (W H : ℚ) (num : Nat)
    (hrng : ∀ n, 0 ≤ rng n ∧ rng n < 1) (hW : 0 < W) (hH : 0 < H) :
    ∀ r ∈ spawn_rectangles rng W H num,
      (60 ≤ r.velocity ∧ r.velocity < 120) ∧
      (10 ≤ r.width ∧ r.width < 50) ∧
      (-(W / 2) ≤ r.x ∧ r.x < W / 2) ∧
      (-(H / 2) ≤ r.y ∧ r.y < H / 2) := by
  intro r hr
  obtain ⟨i, hi, rfl⟩ := spawn_rectangles_mem hr
  obtain ⟨h0w, h1w⟩ := hrng (4 * i)
  obtain ⟨h0x, h1x⟩ := hrng (4 * i + 1)
  obtain ⟨h0y, h1y⟩ := hrng (4 * i + 2)
  obtain ⟨h0v, h1v⟩ := hrng (4 * i + 3)
  simp only [spawnOne]
  refine ⟨⟨by nlinarith, by nlinarith⟩, ⟨by nlinarith, by nlinarith⟩,
    ⟨?_, ?_⟩, ⟨?_, ?_⟩⟩
  · nlinarith [mul_nonneg h0x hW.le]
  · nlinarith [mul_lt_mul_of_pos_right h1x hW]
  · nlinarith [mul_nonneg h0y hH.le]
  · nlinarith [mul_lt_mul_of_pos_right h1y hH]

/-- Witness for C9: the constant stream `1/2` at viewport `800 × 600`
spawns a rectangle with velocity `90`, width `30`, and position `(0, 0)`. -/
theorem C9_spawn_ranges_witness :
    (60 ≤ (spawnOne (fun _ => 1/2) 800 600 0).velocity ∧
      (spawnOne (fun _ => 1/2) 800 600 0).velocity < 120) ∧
    (10 ≤ (spawnOne (fun _ => 1/2) 800 600 0).width ∧
      (spawnOne (fun _ => 1/2) 800 600 0).width < 50) ∧
    (-((800 : ℚ) / 2) ≤ (spawnOne (fun _ => 1/2) 800 600 0).x ∧
      (spawnOne (fun _ => 1/2) 800 600 0).x < (800 : ℚ) / 2) ∧
    (-((600 : ℚ) / 2) ≤ (spawnOne (fun _ => 1/2) 800 600 0).y ∧
      (spawnOne (fun _ => 1/2) 800 600 0).y < (600 : ℚ) / 2) :=
  C9_spawn_ranges (fun _ => 1/2) 800 600 1
    (fun _ => by norm_num) (by norm_num) (by norm_num)
    (spawnOne (fun _ => 1/2) 800 600 0)
    (by simp [spawn_rectangles, List.range_succ])

/-- C10: the `i`-th spawned rectangle (for `i < num`) is `spawnOne i`; it is
a square: its `x` extent is the single sampled side length
`10 + rng (4 i) * 40` (a value in `[10, 50)` when the draw lies in
`[0, 1)`), its `y` extent equals its `x` extent, and the `width` stored on
the entity — the one its boundary threshold uses — is that same side
length. -/
theorem C10_square (rng : Nat → ℚ) (w h : ℚ) (num i : Nat) (hi : i < num)
    (h0 : 0 ≤ rng (4 * i)) (h1 : rng (4 * i) < 1) :
    (spawn_rectangles rng w h num)[i]? = some (spawnOne rng w h i) ∧
    (spawnOne rng w h i).extents_x = 10 + rng (4 * i) * 40 ∧
    10 ≤ (spawnOne rng w h i).extents_x ∧ (spawnOne rng w h i).extents_x < 50 ∧
    (spawnOne rng w h i).extents_y = (spawnOne rng w h i).extents_x ∧
    (spawnOne rng w h i).width = (spawnOne rng w h i).extents_x := by
  refine ⟨?_, rfl, ?_, ?_, rfl, rfl⟩
  · simp [spawn_rectangles, hi]
  · simp only [spawnOne]
    nlinarith
  · simp only [spawnOne]
    nlinarith

/-- Witness for C10: the first rectangle of a one-element spawn with the
constant stream `1/2` has both extents and its stored width equal to the
single side length `10 + (1/2) * 40`. -/
theorem C10_square_witness :
    (spawn_rectangles (fun _ => 1/2) 800 600 1)[0]?
      = some (spawnOne (fun _ => 1/2) 800 600 0) ∧
    (spawnOne (fun _ => 1/2) 800 600 0).extents_x = 10 + (1/2 : ℚ) * 40 ∧
    (spawnOne (fun _ => 1/2) 800 600 0).extents_y
      = (spawnOne (fun _ => 1/2) 800 600 0).extents_x ∧
    (spawnOne (fun _ => 1/2) 800 600 0).width
      = (spawnOne (fun _ => 1/2) 800 600 0).extents_x := by
  have h := C10_square (fun _ => 1/2) 800 600 1 0 (by decide)
    (by norm_num) (by norm_num)
  exact ⟨h.1, h.2.1, h.2.2.2.2.1, h.2.2.2.2.2⟩

end Rects
